import Mathlib

/-!
Verification of the carbon-aware ML energy accounting core
(`src/utils/energy_monitor.py` and `src/utils/carbon_calculator.py`).

Python floats are modelled as rationals (`ℚ`); the arithmetic the claims
speak about (sums, means, divisions by nonzero constants) is exact in the
source's formulas, so `ℚ` is the faithful idealisation.  Python dicts that
may be empty (`{}`) are modelled as `Option` of a record: `none` stands for
the empty dict, `some s` for the fully-populated summary dict built by
`EnergyMonitor.get_summary`.  A Python exception (ZeroDivisionError) is
modelled as `none` of an `Option` result.
-/

namespace CarbonAware

/-- One sample, mirroring the `EnergyMeasurement` dataclass of
`energy_monitor.py`. -/
structure EnergyMeasurement where
  timestamp : ℚ
  cpu_power_watts : ℚ
  gpu_power_watts : ℚ
  total_power_watts : ℚ
  cpu_utilization : ℚ
  gpu_utilization : ℚ
  memory_usage_gb : ℚ
deriving Repr, DecidableEq, Inhabited

/-- The summary dict built by `EnergyMonitor.get_summary` for a non-empty
measurement list (keys flattened; the `system` sub-dict holds only static
configuration data and is omitted). -/
structure EnergySummary where
  duration_seconds : ℚ
  duration_hours : ℚ
  measurements_count : ℕ
  total_kwh : ℚ
  cpu_kwh : ℚ
  gpu_kwh : ℚ
  avg_total_watts : ℚ
  avg_cpu_watts : ℚ
  avg_gpu_watts : ℚ
  peak_total_watts : ℚ
  peak_cpu_watts : ℚ
  peak_gpu_watts : ℚ
  avg_cpu_percent : ℚ
  avg_gpu_percent : ℚ
deriving Repr, DecidableEq, Inhabited

/-- Python `max(f(m) for m in ms)` over the non-empty list `m :: rest`. -/
def peakBy (f : EnergyMeasurement → ℚ) (m : EnergyMeasurement)
    (rest : List EnergyMeasurement) : ℚ :=
  rest.foldl (fun acc x => max acc (f x)) (f m)

/-- `EnergyMonitor.get_summary` (energy_monitor.py lines 244-300).
Returns `none` for the empty measurement list, mirroring `return {}`. -/
def get_summary (ms : List EnergyMeasurement) : Option EnergySummary :=
  match ms with
  | [] => none
  | m :: rest =>
    let l := m :: rest
    let n : ℚ := (l.length : ℚ)
    let duration_seconds := (rest.getLastD m).timestamp - m.timestamp
    let duration_hours := duration_seconds / 3600
    let avg_cpu_power := (l.map (·.cpu_power_watts)).sum / n
    let avg_gpu_power := (l.map (·.gpu_power_watts)).sum / n
    let avg_total_power := (l.map (·.total_power_watts)).sum / n
    some
      { duration_seconds := duration_seconds
        duration_hours := duration_hours
        measurements_count := l.length
        total_kwh := avg_total_power * duration_hours / 1000
        cpu_kwh := avg_cpu_power * duration_hours / 1000
        gpu_kwh := avg_gpu_power * duration_hours / 1000
        avg_total_watts := avg_total_power
        avg_cpu_watts := avg_cpu_power
        avg_gpu_watts := avg_gpu_power
        peak_total_watts := peakBy (·.total_power_watts) m rest
        peak_cpu_watts := peakBy (·.cpu_power_watts) m rest
        peak_gpu_watts := peakBy (·.gpu_power_watts) m rest
        avg_cpu_percent := (l.map (·.cpu_utilization)).sum / n
        avg_gpu_percent := (l.map (·.gpu_utilization)).sum / n }

/-- The last element of `a :: l` is `l.getLastD a`. -/
theorem getLast?_cons_eq (a : EnergyMeasurement) (l : List EnergyMeasurement) :
    (a :: l).getLast? = some (l.getLastD a) := by
  induction l generalizing a with
  | nil => rfl
  | cons b t ih =>
    rw [List.getLast?_cons_cons, ih b, List.getLastD_cons]

/-- C1: for every non-empty measurement list, the summary satisfies
`total_kwh = avg_total_watts * duration_hours / 1000` exactly, with
`avg_total_watts` the arithmetic mean of the samples' `total_power_watts`
and `duration_hours = (last timestamp - first timestamp) / 3600`; the
per-component energies `cpu_kwh` and `gpu_kwh` satisfy the same derivation
from their respective average powers. -/
theorem get_summary_derivation_invariant
    (ms : List EnergyMeasurement) (s : EnergySummary)
    (h : get_summary ms = some s) :
    s.total_kwh = s.avg_total_watts * s.duration_hours / 1000 ∧
    s.cpu_kwh = s.avg_cpu_watts * s.duration_hours / 1000 ∧
    s.gpu_kwh = s.avg_gpu_watts * s.duration_hours / 1000 ∧
    s.avg_total_watts = (ms.map (·.total_power_watts)).sum / ms.length ∧
    s.avg_cpu_watts = (ms.map (·.cpu_power_watts)).sum / ms.length ∧
    s.avg_gpu_watts = (ms.map (·.gpu_power_watts)).sum / ms.length ∧
    (∀ first lastm, ms.head? = some first → ms.getLast? = some lastm →
      s.duration_hours = (lastm.timestamp - first.timestamp) / 3600) := by
  cases ms with
  | nil => simp [get_summary] at h
  | cons m rest =>
    simp only [get_summary, Option.some.injEq] at h
    subst h
    refine ⟨rfl, rfl, rfl, rfl, rfl, rfl, ?_⟩
    intro first lastm hfirst hlast
    rw [getLast?_cons_eq] at hlast
    simp only [List.head?_cons, Option.some.injEq] at hfirst
    cases hfirst
    cases hlast
    rfl

/-- A concrete two-sample run used to witness the hypotheses of the
summary theorems. -/
def testMeasurements : List EnergyMeasurement :=
  [ { timestamp := 0, cpu_power_watts := 10, gpu_power_watts := 20,
      total_power_watts := 30, cpu_utilization := 50, gpu_utilization := 25,
      memory_usage_gb := 4 },
    { timestamp := 3600, cpu_power_watts := 30, gpu_power_watts := 40,
      total_power_watts := 70, cpu_utilization := 80, gpu_utilization := 60,
      memory_usage_gb := 5 } ]

/-- The summary the monitor produces on `testMeasurements`. -/
def testSummary : EnergySummary :=
  (get_summary testMeasurements).getD default

/-- C1 witness: the derivation invariant at a concrete two-sample run. -/
theorem get_summary_derivation_invariant_witness :
    get_summary testMeasurements = some testSummary ∧
    testSummary.total_kwh =
      testSummary.avg_total_watts * testSummary.duration_hours / 1000 :=
  ⟨rfl,
   (get_summary_derivation_invariant testMeasurements testSummary rfl).1⟩

/-- The `CarbonFootprint` dataclass of `carbon_calculator.py`. -/
structure CarbonFootprint where
  total_co2_grams : ℚ
  total_co2_kg : ℚ
  energy_kwh : ℚ
  avg_carbon_intensity : ℚ
  duration_hours : ℚ
  cost_estimate_usd : Option ℚ := none
deriving Repr, DecidableEq, Inhabited

/-- The static per-region fallback table `regional_averages` of
`CarbonCalculator.calculate_footprint` (carbon_calculator.py lines
122-132); `.get(region, default)` yields 475 for any unlisted region. -/
def regional_average (region : String) : ℚ :=
  if region = "IN-SO" then 708
  else if region = "US-CA" then 234
  else if region = "DE" then 401
  else if region = "FR" then 79
  else if region = "GB" then 233
  else if region = "CN" then 681
  else if region = "JP" then 475
  else 475

/-- The `electricity_costs` table of `CarbonCalculator.__init__`
(carbon_calculator.py lines 44-53), in USD per kWh. -/
def electricity_cost (region : String) : ℚ :=
  if region = "IN-SO" then 8/100
  else if region = "US-CA" then 20/100
  else if region = "DE" then 30/100
  else if region = "FR" then 18/100
  else if region = "GB" then 25/100
  else if region = "CN" then 8/100
  else if region = "JP" then 26/100
  else 15/100

/-- `CarbonCalculator.calculate_footprint` (carbon_calculator.py lines
92-153).  `region` is the calculator's configured region; `live` is the
value `get_carbon_intensity_cached()` would return at the call (the
cache-mediated live intensity, `none` when unavailable);
`energy_summary = none` models the empty dict `{}` caught by
`if not energy_summary`; `override` is the optional `carbon_intensity`
argument.  The Python function never raises, so this is a total
function into `CarbonFootprint`. -/
def calculate_footprint (region : String) (live : Option ℚ)
    (energy_summary : Option EnergySummary) (override : Option ℚ) :
    CarbonFootprint :=
  match energy_summary with
  | none =>
    { total_co2_grams := 0, total_co2_kg := 0, energy_kwh := 0,
      avg_carbon_intensity := 0, duration_hours := 0 }
  | some s =>
    let energy_kwh := s.total_kwh
    let duration_hours := s.duration_hours
    if energy_kwh ≤ 0 then
      { total_co2_grams := 0, total_co2_kg := 0, energy_kwh := 0,
        avg_carbon_intensity := 0, duration_hours := duration_hours }
    else
      let carbon_intensity :=
        match override with
        | some c => c
        | none =>
          match live with
          | some c => c
          | none => regional_average region
      let total_co2_grams := energy_kwh * carbon_intensity
      let total_co2_kg := total_co2_grams / 1000
      let cost_estimate_usd := energy_kwh * electricity_cost region
      { total_co2_grams := total_co2_grams
        total_co2_kg := total_co2_kg
        energy_kwh := energy_kwh
        avg_carbon_intensity := carbon_intensity
        duration_hours := duration_hours
        cost_estimate_usd := some cost_estimate_usd }

/-- C4 counterexample: on the empty measurement list `get_summary`
returns the empty dict `{}` (modelled `none`), not a populated summary
record with `sample_count = 0` and zeroed fields as the claim states. -/
theorem get_summary_empty_returns_empty_dict :
    get_summary ([] : List EnergyMeasurement) = none := rfl

/-- C4 (amended): on the empty measurement list `get_summary` returns
the empty dict (no summary fields at all) and never raises — there is no
division by a zero sample count — and the downstream footprint
calculation treats that empty dict as zero consumption, producing the
all-zero footprint. -/
theorem get_summary_empty_behaviour :
    get_summary ([] : List EnergyMeasurement) = none ∧
    (∀ region live override,
      calculate_footprint region live
          (get_summary ([] : List EnergyMeasurement)) override =
        { total_co2_grams := 0, total_co2_kg := 0, energy_kwh := 0,
          avg_carbon_intensity := 0, duration_hours := 0,
          cost_estimate_usd := none }) :=
  ⟨rfl, fun _ _ _ => rfl⟩

/-- C5: with positive recorded energy the footprint's emissions are
`total_co2_grams = energy_kwh * c` for the resolved intensity `c`
(recorded in `avg_carbon_intensity`) and `total_co2_kg =
total_co2_grams / 1000`; with `energy_kwh ≤ 0` the result is the zero
footprint carrying the summary's (possibly nonzero) `duration_hours`,
and no error is raised (the function is total). -/
theorem calculate_footprint_emissions
    (region : String) (live : Option ℚ) (s : EnergySummary)
    (override : Option ℚ) :
    (0 < s.total_kwh →
      (calculate_footprint region live (some s) override).total_co2_grams =
        s.total_kwh *
          (calculate_footprint region live (some s) override).avg_carbon_intensity ∧
      (calculate_footprint region live (some s) override).total_co2_kg =
        (calculate_footprint region live (some s) override).total_co2_grams / 1000 ∧
      (calculate_footprint region live (some s) override).energy_kwh =
        s.total_kwh) ∧
    (s.total_kwh ≤ 0 →
      calculate_footprint region live (some s) override =
        { total_co2_grams := 0, total_co2_kg := 0, energy_kwh := 0,
          avg_carbon_intensity := 0, duration_hours := s.duration_hours,
          cost_estimate_usd := none }) := by
  constructor
  · intro hpos
    have hns : ¬ s.total_kwh ≤ 0 := not_le.mpr hpos
    refine ⟨?_, ?_, ?_⟩ <;> simp [calculate_footprint, if_neg hns]
  · intro hle
    simp only [calculate_footprint, if_pos hle]

/-- A summary recording 0.1 kWh, used as concrete input for the
footprint claims. -/
def summaryTenthKwh : EnergySummary :=
  { duration_seconds := 7200, duration_hours := 2, measurements_count := 3
    total_kwh := 1/10, cpu_kwh := 1/20, gpu_kwh := 1/20
    avg_total_watts := 50, avg_cpu_watts := 25, avg_gpu_watts := 25
    peak_total_watts := 60, peak_cpu_watts := 30, peak_gpu_watts := 30
    avg_cpu_percent := 40, avg_gpu_percent := 10 }

/-- C5 witness: `energy_kwh = 0.1` with intensity override 400 yields
`total_co2_grams = 40` and `total_co2_kg = 0.04`. -/
theorem calculate_footprint_emissions_witness :
    0 < summaryTenthKwh.total_kwh ∧
    (calculate_footprint "DE" none (some summaryTenthKwh)
        (some 400)).total_co2_grams = 40 ∧
    (calculate_footprint "DE" none (some summaryTenthKwh)
        (some 400)).total_co2_kg = 4/100 := by
  have hpos : 0 < summaryTenthKwh.total_kwh := by norm_num [summaryTenthKwh]
  have hns : ¬ summaryTenthKwh.total_kwh ≤ 0 := not_le.mpr hpos
  obtain ⟨hg, hk, he⟩ :=
    (calculate_footprint_emissions "DE" none summaryTenthKwh (some 400)).1 hpos
  have hci : (calculate_footprint "DE" none (some summaryTenthKwh)
      (some 400)).avg_carbon_intensity = 400 := by
    simp [calculate_footprint, if_neg hns]
  refine ⟨hpos, ?_, ?_⟩
  · rw [hg, hci]; norm_num [summaryTenthKwh]
  · rw [hk, hg, hci]; norm_num [summaryTenthKwh]

/-- C7: the intensity used by `calculate_footprint` follows the
resolution order explicit override → cache-mediated live value →
static per-region fallback table → global default 475 for unlisted
regions, and is recorded in the footprint's `avg_carbon_intensity`. -/
theorem calculate_footprint_intensity_resolution
    (region : String) (live : Option ℚ) (s : EnergySummary)
    (h : 0 < s.total_kwh) :
    (∀ c, (calculate_footprint region live (some s)
        (some c)).avg_carbon_intensity = c) ∧
    (∀ c, (calculate_footprint region (some c) (some s)
        none).avg_carbon_intensity = c) ∧
    ((calculate_footprint region none (some s) none).avg_carbon_intensity =
      regional_average region) ∧
    (region ∉ ["IN-SO", "US-CA", "DE", "FR", "GB", "CN", "JP"] →
      regional_average region = 475) := by
  have hns : ¬ s.total_kwh ≤ 0 := not_le.mpr h
  refine ⟨?_, ?_, ?_, ?_⟩
  · intro c; simp only [calculate_footprint, if_neg hns]
  · intro c; simp only [calculate_footprint, if_neg hns]
  · simp only [calculate_footprint, if_neg hns]
  · intro hmem
    simp only [List.mem_cons, List.not_mem_nil, or_false, not_or] at hmem
    obtain ⟨h1, h2, h3, h4, h5, h6, h7⟩ := hmem
    simp only [regional_average, if_neg h1, if_neg h2, if_neg h3, if_neg h4,
      if_neg h5, if_neg h6, if_neg h7]

/-- C7 witness: the resolution order at concrete inputs — override 400
wins; a live value 250 is used when no override is given; with neither,
the unlisted region "ZZ" falls through the table to the global default
475. -/
theorem calculate_footprint_intensity_resolution_witness :
    0 < summaryTenthKwh.total_kwh ∧
    (calculate_footprint "ZZ" (some 250) (some summaryTenthKwh)
        (some 400)).avg_carbon_intensity = 400 ∧
    (calculate_footprint "ZZ" (some 250) (some summaryTenthKwh)
        none).avg_carbon_intensity = 250 ∧
    (calculate_footprint "ZZ" none (some summaryTenthKwh)
        none).avg_carbon_intensity = 475 := by
  have hpos : 0 < summaryTenthKwh.total_kwh := by norm_num [summaryTenthKwh]
  obtain ⟨h1, h2, h3, h4⟩ :=
    calculate_footprint_intensity_resolution "ZZ" (some 250)
      summaryTenthKwh hpos
  obtain ⟨g1, g2, g3, g4⟩ :=
    calculate_footprint_intensity_resolution "ZZ" none
      summaryTenthKwh hpos
  refine ⟨hpos, h1 400, h2 250, ?_⟩
  rw [g3, g4 (by decide)]

/-- One entry of `CarbonCalculator.carbon_intensity_cache` for the
configured region: the fetched `value` and the `timestamp` at which it
was stored. -/
structure CacheEntry where
  value : ℚ
  timestamp : ℚ
deriving Repr, DecidableEq

/-- Outcome of one `get_carbon_intensity_cached` call: the cache state
after the call, the returned intensity, and whether an upstream fetch
(`get_carbon_intensity()`) was triggered. -/
structure CacheResult where
  cache : Option CacheEntry
  result : Option ℚ
  fetched : Bool
deriving Repr, DecidableEq

/-- `self.cache_duration = 300` seconds (carbon_calculator.py line 41). -/
def cache_duration : ℚ := 300

/-- `CarbonCalculator.get_carbon_intensity_cached` (carbon_calculator.py
lines 57-90), for the single configured region.  `cache` is the entry
stored under that region (`none` when absent), `now` is `time.time()`,
and `fetch` is what the upstream `get_carbon_intensity()` would return
if called (`none` models fetch failure).  On a fresh entry the cached
value is returned with no fetch; otherwise the upstream is fetched,
a successful result is stored with the current time, and a failed
fetch leaves the cache dict untouched and returns `none`. -/
def get_carbon_intensity_cached (cache : Option CacheEntry) (now : ℚ)
    (fetch : Option ℚ) : CacheResult :=
  let fetchStep : CacheResult :=
    match fetch with
    | some v => { cache := some { value := v, timestamp := now },
                  result := some v, fetched := true }
    | none => { cache := cache, result := none, fetched := true }
  match cache with
  | some e =>
    if now - e.timestamp < cache_duration then
      { cache := cache, result := some e.value, fetched := false }
    else
      fetchStep
  | none => fetchStep

/-- C3: after a successful fetch stored at `t1`, a second call at
`t2` with `t2 - t1 < TTL` is served from the cache (no upstream fetch,
same value, cache unchanged), while a call at `t3` with
`t3 - t1 ≥ TTL` triggers a second upstream fetch; in general a cached
entry whose age has reached the TTL is never served. -/
theorem cache_ttl_behaviour (t1 t2 t3 v v3 : ℚ) (fetch2 : Option ℚ)
    (h12 : t2 - t1 < cache_duration) (h13 : cache_duration ≤ t3 - t1) :
    (get_carbon_intensity_cached none t1 (some v)).fetched = true ∧
    (get_carbon_intensity_cached none t1 (some v)).cache =
      some { value := v, timestamp := t1 } ∧
    (get_carbon_intensity_cached
        (get_carbon_intensity_cached none t1 (some v)).cache t2
        fetch2).fetched = false ∧
    (get_carbon_intensity_cached
        (get_carbon_intensity_cached none t1 (some v)).cache t2
        fetch2).result = some v ∧
    (get_carbon_intensity_cached
        (get_carbon_intensity_cached none t1 (some v)).cache t2
        fetch2).cache = (get_carbon_intensity_cached none t1 (some v)).cache ∧
    (get_carbon_intensity_cached
        (get_carbon_intensity_cached none t1 (some v)).cache t3
        (some v3)).fetched = true ∧
    (∀ e now f, cache_duration ≤ now - e.timestamp →
      (get_carbon_intensity_cached (some e) now f).fetched = true) := by
  have hc : (get_carbon_intensity_cached none t1 (some v)).cache =
      some { value := v, timestamp := t1 } := rfl
  refine ⟨rfl, rfl, ?_, ?_, ?_, ?_, ?_⟩
  · rw [hc]; simp [get_carbon_intensity_cached, if_pos h12]
  · rw [hc]; simp [get_carbon_intensity_cached, if_pos h12]
  · rw [hc]; simp [get_carbon_intensity_cached, if_pos h12]
  · rw [hc]
    have : ¬ t3 - t1 < cache_duration := not_lt.mpr h13
    simp [get_carbon_intensity_cached, if_neg this]
  · intro e now f h
    have : ¬ now - e.timestamp < cache_duration := not_lt.mpr h
    cases f <;> simp [get_carbon_intensity_cached, if_neg this]

/-- C3 witness: a fetch at time 0, a cache hit at time 100, and a fresh
fetch at time 300 (the TTL boundary). -/
theorem cache_ttl_behaviour_witness :
    (get_carbon_intensity_cached
        (get_carbon_intensity_cached none 0 (some 420)).cache 100
        none).fetched = false ∧
    (get_carbon_intensity_cached
        (get_carbon_intensity_cached none 0 (some 420)).cache 100
        none).result = some 420 ∧
    (get_carbon_intensity_cached
        (get_carbon_intensity_cached none 0 (some 420)).cache 300
        (some 500)).fetched = true := by
  obtain ⟨_, _, a3, a4, _, a6, _⟩ :=
    cache_ttl_behaviour 0 100 300 420 500 none
      (by norm_num [cache_duration]) (by norm_num [cache_duration])
  exact ⟨a3, a4, a6⟩

/-- C6: on a cache miss or an expired entry, a failed upstream fetch
yields `none` and leaves the cache unchanged (the failure is not
stored); and an expired entry is never served afterwards — every later
call (time is monotone) fetches upstream again and returns exactly the
fetch's outcome. -/
theorem cache_fetch_failure (cache : Option CacheEntry) (now : ℚ)
    (hmiss : ∀ e, cache = some e → cache_duration ≤ now - e.timestamp) :
    (get_carbon_intensity_cached cache now none).result = none ∧
    (get_carbon_intensity_cached cache now none).cache = cache ∧
    (∀ e, cache = some e → ∀ later f, now ≤ later →
      (get_carbon_intensity_cached cache later f).fetched = true ∧
      (get_carbon_intensity_cached cache later f).result = f) := by
  cases cache with
  | none =>
    refine ⟨rfl, rfl, ?_⟩
    intro e he
    cases he
  | some e =>
    have hexp : cache_duration ≤ now - e.timestamp := hmiss e rfl
    have hnl : ¬ now - e.timestamp < cache_duration := not_lt.mpr hexp
    refine ⟨?_, ?_, ?_⟩
    · simp [get_carbon_intensity_cached, if_neg hnl]
    · simp [get_carbon_intensity_cached, if_neg hnl]
    · intro e2 he2 later f hlater
      obtain rfl : e = e2 := by injection he2
      have hexp2 : cache_duration ≤ later - e.timestamp := by linarith
      have hnl2 : ¬ later - e.timestamp < cache_duration := not_lt.mpr hexp2
      cases f <;> simp [get_carbon_intensity_cached, if_neg hnl2]

/-- C6 witness: an entry stored at time 0 queried at time 300 (expired)
with a failing fetch — the result is absent and the cache is unchanged;
a call at time 400 fetches again. -/
theorem cache_fetch_failure_witness :
    (get_carbon_intensity_cached
        (some { value := 420, timestamp := 0 }) 300 none).result = none ∧
    (get_carbon_intensity_cached
        (some { value := 420, timestamp := 0 }) 300 none).cache =
      some { value := 420, timestamp := 0 } ∧
    (get_carbon_intensity_cached
        (some { value := 420, timestamp := 0 }) 400 (some 500)).fetched =
      true := by
  have h := cache_fetch_failure (some { value := 420, timestamp := 0 }) 300
    (by intro e he; cases he; norm_num [cache_duration])
  refine ⟨h.1, h.2.1, ?_⟩
  exact (h.2.2 { value := 420, timestamp := 0 } rfl 400 (some 500)
    (by norm_num)).1

/-- The status dict returned by `CarbonCalculator.get_carbon_budget_status`
(carbon_calculator.py lines 209-215). -/
structure BudgetStatus where
  daily_budget_kg : ℚ
  used_kg : ℚ
  remaining_kg : ℚ
  percentage_used : ℚ
  budget_exceeded : Bool
deriving Repr, DecidableEq, Inhabited

/-- The default daily carbon budget `2300 / 365` kg (carbon_calculator.py
line 204). -/
def default_daily_budget : ℚ := 2300 / 365

/-- `CarbonCalculator.get_carbon_budget_status` (carbon_calculator.py
lines 190-217).  The function is pure: its result depends only on its
arguments and it retains no state.  Python raises `ZeroDivisionError`
when the resolved budget is 0 (the division `co2_kg / daily_budget_kg`
is unguarded); that exception is modelled as `none`. -/
def get_carbon_budget_status (co2_kg : ℚ) (daily_budget_kg : Option ℚ) :
    Option BudgetStatus :=
  let budget := daily_budget_kg.getD default_daily_budget
  if budget = 0 then
    none
  else
    some { daily_budget_kg := budget
           used_kg := co2_kg
           remaining_kg := max 0 (budget - co2_kg)
           percentage_used := co2_kg / budget * 100
           budget_exceeded := decide (budget < co2_kg) }

/-- C8: for a positive budget the status carries
`remaining_kg = max 0 (budget - used)`,
`percentage_used = used / budget * 100`, and `exceeded` true exactly
when `used > budget`; an unspecified budget defaults to `2300 / 365` kg.
The operation is a pure function of its two arguments. -/
theorem budget_status_formulas (used budget : ℚ) (hb : 0 < budget) :
    (get_carbon_budget_status used (some budget)).map (·.daily_budget_kg) =
      some budget ∧
    (get_carbon_budget_status used (some budget)).map (·.used_kg) =
      some used ∧
    (get_carbon_budget_status used (some budget)).map (·.remaining_kg) =
      some (max 0 (budget - used)) ∧
    (get_carbon_budget_status used (some budget)).map (·.percentage_used) =
      some (used / budget * 100) ∧
    ((get_carbon_budget_status used (some budget)).map (·.budget_exceeded) =
        some true ↔ budget < used) ∧
    get_carbon_budget_status used none =
      get_carbon_budget_status used (some (2300 / 365)) := by
  have hne : budget ≠ 0 := ne_of_gt hb
  refine ⟨?_, ?_, ?_, ?_, ?_, rfl⟩ <;>
    simp [get_carbon_budget_status, if_neg hne]

/-- C8 witness: `used = 1, budget = 5` gives remaining 4, percentage 20
and not exceeded; `used = 6, budget = 5` gives remaining 0 and
exceeded. -/
theorem budget_status_formulas_witness :
    (get_carbon_budget_status 1 (some 5)).map (·.remaining_kg) = some 4 ∧
    (get_carbon_budget_status 1 (some 5)).map (·.percentage_used) =
      some 20 ∧
    ¬ (get_carbon_budget_status 1 (some 5)).map (·.budget_exceeded) =
      some true ∧
    (get_carbon_budget_status 6 (some 5)).map (·.remaining_kg) = some 0 ∧
    (get_carbon_budget_status 6 (some 5)).map (·.budget_exceeded) =
      some true := by
  obtain ⟨_, _, hr1, hp1, hx1, _⟩ := budget_status_formulas 1 5 (by norm_num)
  obtain ⟨_, _, hr2, _, hx2, _⟩ := budget_status_formulas 6 5 (by norm_num)
  refine ⟨?_, ?_, ?_, ?_, ?_⟩
  · rw [hr1]
    norm_num
  · rw [hp1]
    norm_num
  · rw [hx1]
    norm_num
  · rw [hr2]
    norm_num
  · rw [hx2]
    norm_num

/-- C10: the budget-status operation fails (ZeroDivisionError, modelled
`none`) whenever the budget argument is 0 — the division computing
`percentage_used` is unguarded — and succeeds for every nonzero
budget, so it is total only under the precondition
`daily_budget_kg ≠ 0`. -/
theorem budget_status_zero_budget (used b : ℚ) (hb : b ≠ 0) :
    get_carbon_budget_status used (some 0) = none ∧
    (get_carbon_budget_status used (some b)).isSome = true := by
  constructor
  · simp [get_carbon_budget_status]
  · simp [get_carbon_budget_status, if_neg hb]

/-- C10 witness: budget 0 fails at `used = 1`; budget 5 succeeds. -/
theorem budget_status_zero_budget_witness :
    get_carbon_budget_status 1 (some 0) = none ∧
    (get_carbon_budget_status 1 (some 5)).isSome = true :=
  budget_status_zero_budget 1 5 (by norm_num)

/-- What `EnergyMonitor._estimate_cpu_tdp` observes: either hardware
introspection raises (`fails`), or it reads a core count and an
optional current frequency in MHz (`psutil.cpu_freq()` may return a
falsy value, modelled `none`). -/
inductive CpuIntrospection where
  | fails : CpuIntrospection
  | ok : ℕ → Option ℚ → CpuIntrospection
deriving Repr, DecidableEq

/-- `EnergyMonitor._estimate_cpu_tdp` (energy_monitor.py lines 89-105):
with a frequency reading the per-core heuristic estimate is clamped by
`max(35, min(estimated_tdp, 200))`; with no frequency reading the
fallback is `cpu_count * 20` (unclamped); if introspection raises the
conservative default is 65 W. -/
def estimate_cpu_tdp : CpuIntrospection → ℚ
  | .fails => 65
  | .ok cpu_count none => (cpu_count : ℚ) * 20
  | .ok cpu_count (some freq) =>
    let base_freq_ghz := freq / 1000
    let estimated_tdp := (cpu_count : ℚ) * (15 + (base_freq_ghz - 2) * 5)
    max 35 (min estimated_tdp 200)

/-- `EnergyMonitor._get_cpu_power` (energy_monitor.py lines 107-121):
returns the estimated power `cpu_tdp * (cpu_percent / 100)` paired with
the utilization reading. -/
def get_cpu_power (cpu_tdp : ℚ) (cpu_percent : ℚ) : ℚ × ℚ :=
  (cpu_tdp * (cpu_percent / 100), cpu_percent)

/-- C9 counterexample: with a single core and an absent frequency
reading, the computed TDP is `1 * 20 = 20` W, outside the claimed
interval [35, 200]. -/
theorem estimate_cpu_tdp_no_freq_below_35 :
    estimate_cpu_tdp (.ok 1 none) = 20 ∧
    ¬ (35 ≤ estimate_cpu_tdp (.ok 1 none) ∧
       estimate_cpu_tdp (.ok 1 none) ≤ 200) := by
  constructor
  · norm_num [estimate_cpu_tdp]
  · rintro ⟨h35, _⟩
    rw [show estimate_cpu_tdp (.ok 1 none) = 20 from by
      norm_num [estimate_cpu_tdp]] at h35
    norm_num at h35

/-- C9 (amended): when a frequency reading is available the TDP
heuristic is clamped to [35, 200] W; when the frequency is absent the
fallback is the unclamped `20 * cores` (which can leave the interval);
when introspection raises, the conservative default 65 W is used; and
each tick's estimated CPU power is `cpu_tdp * (cpu_util_pct / 100)`. -/
theorem estimate_cpu_tdp_range (cores : ℕ) (freq : ℚ) (util : ℚ) :
    35 ≤ estimate_cpu_tdp (.ok cores (some freq)) ∧
    estimate_cpu_tdp (.ok cores (some freq)) ≤ 200 ∧
    estimate_cpu_tdp .fails = 65 ∧
    estimate_cpu_tdp (.ok cores none) = (cores : ℚ) * 20 ∧
    (∀ tdp, (get_cpu_power tdp util).1 = tdp * (util / 100)) := by
  refine ⟨?_, ?_, rfl, rfl, fun _ => rfl⟩
  · exact le_max_left 35 _
  · exact max_le (by norm_num) (min_le_right _ 200)

/-- The state of an `EnergyTracker` and its owned `EnergyMonitor`:
the monitor's `monitoring` flag and measurement buffer, plus the
tracker's `summary` attribute (the dict stored by `__exit__`,
`none` for the initial `{}`). -/
structure TrackerState where
  monitoring : Bool
  measurements : List EnergyMeasurement
  summary : Option EnergySummary
deriving Repr, DecidableEq

/-- `EnergyMonitor.stop_monitoring` (energy_monitor.py lines 231-242):
when running, clears the flag and returns `get_summary()`; when not
running it warns and returns the empty dict (`none`). -/
def stop_monitoring (t : TrackerState) : TrackerState × Option EnergySummary :=
  if t.monitoring then
    ({ t with monitoring := false }, get_summary t.measurements)
  else
    (t, none)

/-- `EnergyTracker.__exit__` (energy_monitor.py lines 330-332): stores
`stop_monitoring()`'s summary and returns `False` (never suppresses an
exception). -/
def tracker_exit (t : TrackerState) : TrackerState × Bool :=
  let r := stop_monitoring t
  ({ r.1 with summary := r.2 }, false)

/-- A `CarbonAwareTrainingSession`: its tracker and its `footprint`
attribute. -/
structure SessionState where
  tracker : TrackerState
  footprint : Option CarbonFootprint
deriving Repr, DecidableEq

/-- `CarbonAwareTrainingSession.__init__` (carbon_calculator.py lines
222-238): `self.footprint = None` before any session has run. -/
def session_init : SessionState :=
  { tracker := { monitoring := false, measurements := [], summary := none }
    footprint := none }

/-- `CarbonAwareTrainingSession.get_carbon_footprint` (carbon_calculator.py
lines 272-274). -/
def get_carbon_footprint (s : SessionState) : Option CarbonFootprint :=
  s.footprint

/-- `CarbonAwareTrainingSession.__exit__` (carbon_calculator.py lines
252-270).  `exc` is the exception raised by the enclosed workload
(`none` when it completed normally); the method ignores it except to
pass it through to the tracker's `__exit__`, which also ignores it.
`region` and `live` parameterise the footprint calculation as in
`calculate_footprint`.  The returned flag is the value handed back to
the language runtime: the exception is suppressed iff it is true, and
the code always returns `False`. -/
def session_exit (st : SessionState) (exc : Option String) (region : String)
    (live : Option ℚ) : SessionState × Bool :=
  let te := tracker_exit st.tracker
  let fp := calculate_footprint region live te.1.summary none
  ({ tracker := te.1, footprint := some fp }, false)

/-- C2: for every enclosed workload outcome, including a raised
exception, `__exit__` stops monitoring, stores exactly one non-null
footprint, and returns `False` so the original failure propagates
unmodified; on a session that never ran, `get_carbon_footprint`
returns `None`. -/
theorem session_exit_always_accounts (st : SessionState)
    (exc : Option String) (region : String) (live : Option ℚ) :
    (session_exit st exc region live).1.tracker.monitoring = false ∧
    ((session_exit st exc region live).1.footprint).isSome = true ∧
    (session_exit st exc region live).2 = false ∧
    get_carbon_footprint session_init = none := by
  refine ⟨?_, rfl, rfl, rfl⟩
  show (tracker_exit st.tracker).1.monitoring = false
  simp only [tracker_exit, stop_monitoring]
  by_cases h : st.tracker.monitoring
  · simp [h]
  · simp [h]

end CarbonAware
